import Mathlib

/-!
Shallow embedding of the event-ticketing backend (`src/backend/server.py`)
and verification of its specified booking/inventory/role properties.

The MongoDB collections are modelled as lists of records; `find_one`
becomes `List.find?` (first match) and `update_one` becomes `updateFirst`
(modify the first matching record).  Monetary amounts are rationals,
quantities and counters are integers (Python ints), statuses are the
literal strings used by the code.  Each HTTP handler becomes a function
from the store (plus the request data and the responses of external
services, which are parameters) to `Except HTTPError (Store × result)`;
raising `HTTPException` corresponds to returning `.error`, which commits
nothing.
-/

namespace EventBackend

/-- A user document (`users` collection); only the fields relevant to the
role-lifecycle claims are kept. -/
structure UserRec where
  id : String
  email : String
  name : String
  role : String
deriving Repr, DecidableEq

/-- A session document (`user_sessions` collection). -/
structure SessionRec where
  user_id : String
  session_token : String
deriving Repr, DecidableEq

/-- An event document (`events` collection); descriptive fields omitted. -/
structure EventRec where
  id : String
  creator_id : String
  status : String
deriving Repr, DecidableEq

/-- A ticket-type document (`ticket_types` collection). -/
structure TicketType where
  id : String
  event_id : String
  name : String
  price : ℚ
  quantity_available : Int
  quantity_sold : Int
deriving Repr, DecidableEq

/-- A booking document (`bookings` collection). -/
structure Booking where
  id : String
  user_id : String
  event_id : String
  ticket_type_id : String
  quantity : Int
  total_price : ℚ
  status : String
  payment_intent_id : Option String
  qr_code_data : Option String
deriving Repr, DecidableEq

/-- A payment-transaction document (`payment_transactions` collection). -/
structure PaymentTransaction where
  id : String
  session_id : String
  booking_id : String
  user_id : String
  amount : ℚ
  payment_status : String
  status : String
deriving Repr, DecidableEq

/-- The whole document store. -/
structure Store where
  users : List UserRec
  user_sessions : List SessionRec
  events : List EventRec
  ticket_types : List TicketType
  bookings : List Booking
  payment_transactions : List PaymentTransaction
deriving Repr, DecidableEq

/-- `update_one`: apply `f` to the first element satisfying `p`, leave the
rest unchanged (Mongo updates at most one document). -/
def updateFirst (p : α → Bool) (f : α → α) : List α → List α
  | [] => []
  | x :: xs => if p x then f x :: xs else x :: updateFirst p f xs

/-- An `HTTPException(status_code, detail)`. -/
structure HTTPError where
  status_code : Int
  detail : String
deriving Repr, DecidableEq

/-- Request body of `POST /bookings`. -/
structure BookingCreate where
  event_id : String
  ticket_type_id : String
  quantity : Int
deriving Repr, DecidableEq

/-- Response of `POST /bookings`: the booking and the `requires_payment`
flag. -/
structure BookingResult where
  booking : Booking
  requires_payment : Bool
deriving Repr, DecidableEq

/-- `POST /bookings` (`create_booking` in `server.py`).  `user_id` is the
authenticated caller, `fresh_id` and `fresh_qr` stand for the freshly
generated UUIDs. -/
def create_booking (s : Store) (user_id : String) (booking_data : BookingCreate)
    (fresh_id fresh_qr : String) : Except HTTPError (Store × BookingResult) :=
  match s.events.find? (fun e => e.id == booking_data.event_id) with
  | none => .error ⟨404, "Event not found or inactive"⟩
  | some event =>
    if event.status != "active" then .error ⟨404, "Event not found or inactive"⟩
    else
      match s.ticket_types.find? (fun t => t.id == booking_data.ticket_type_id) with
      | none => .error ⟨404, "Ticket type not found"⟩
      | some ticket_type =>
        if ticket_type.event_id != booking_data.event_id then
          .error ⟨404, "Ticket type not found"⟩
        else
          let available := ticket_type.quantity_available - ticket_type.quantity_sold
          if available < booking_data.quantity then
            .error ⟨400, "Not enough tickets available"⟩
          else
            let total_price := ticket_type.price * booking_data.quantity
            let booking : Booking :=
              { id := fresh_id
                user_id := user_id
                event_id := booking_data.event_id
                ticket_type_id := booking_data.ticket_type_id
                quantity := booking_data.quantity
                total_price := total_price
                status := if total_price > 0 then "pending" else "confirmed"
                payment_intent_id := none
                qr_code_data := if total_price == 0 then some fresh_qr else none }
            let s1 : Store := { s with bookings := s.bookings ++ [booking] }
            let tts :=
              updateFirst (fun t => t.id == booking_data.ticket_type_id)
                (fun t => { t with quantity_sold := t.quantity_sold + booking_data.quantity })
                s1.ticket_types
            let s2 : Store :=
              if total_price == 0 then { s1 with ticket_types := tts } else s1
            .ok (s2, ⟨booking, decide (total_price > 0)⟩)

/-- `POST /bookings/checkout` (`create_checkout_session`).  The Stripe
call is external: `session_id` is the id the provider returns, and
`fresh_tx_id` the freshly generated transaction UUID. -/
def create_checkout_session (s : Store) (user_id booking_id session_id fresh_tx_id : String) :
    Except HTTPError (Store × String) :=
  match s.bookings.find? (fun b => b.id == booking_id) with
  | none => .error ⟨404, "Booking not found"⟩
  | some booking =>
    if booking.user_id != user_id then .error ⟨403, "Not authorized"⟩
    else if booking.status != "pending" then .error ⟨400, "Booking already processed"⟩
    else
      let transaction : PaymentTransaction :=
        { id := fresh_tx_id
          session_id := session_id
          booking_id := booking.id
          user_id := user_id
          amount := booking.total_price
          payment_status := "pending"
          status := "initiated" }
      let s1 : Store :=
        { s with payment_transactions := s.payment_transactions ++ [transaction] }
      let bks :=
        updateFirst (fun b => b.id == booking.id)
          (fun b => { b with payment_intent_id := some session_id }) s1.bookings
      .ok ({ s1 with bookings := bks }, session_id)

/-- What `stripe_checkout.get_checkout_status` reports (external). -/
structure CheckoutStatusResponse where
  status : String
  payment_status : String
  amount_total : Int
  currency : String
deriving Repr, DecidableEq

/-- Response of `GET /bookings/payment-status/{session_id}`; the
short-circuit return carries no amount/currency. -/
structure PaymentStatusResponse where
  status : String
  payment_status : String
  amount_total : Option Int
  currency : Option String
deriving Repr, DecidableEq

/-- `GET /bookings/payment-status/{session_id}` (`check_payment_status`).
`user_id` is the authenticated caller (the handler receives it from
`require_auth` and never uses it); `checkout_status` is the provider's
answer (queried only past the idempotence guard); `fresh_qr` the freshly
generated QR UUID. -/
def check_payment_status (s : Store) (user_id session_id : String)
    (checkout_status : CheckoutStatusResponse) (fresh_qr : String) :
    Except HTTPError (Store × PaymentStatusResponse) :=
  match s.payment_transactions.find? (fun t => t.session_id == session_id) with
  | none => .error ⟨404, "Transaction not found"⟩
  | some transaction =>
    if transaction.payment_status == "paid" then
      .ok (s, ⟨"completed", "paid", none, none⟩)
    else
      let txs :=
        updateFirst (fun t => t.session_id == session_id)
          (fun t => { t with payment_status := checkout_status.payment_status,
                             status := checkout_status.status })
          s.payment_transactions
      let s1 : Store := { s with payment_transactions := txs }
      let s2 : Store :=
        if checkout_status.payment_status == "paid" then
          match s1.bookings.find? (fun b => b.id == transaction.booking_id) with
          | none => s1
          | some booking =>
            if booking.status == "pending" then
              let bks :=
                updateFirst (fun b => b.id == transaction.booking_id)
                  (fun b => { b with status := "confirmed", qr_code_data := some fresh_qr })
                  s1.bookings
              let s3 : Store := { s1 with bookings := bks }
              let tts :=
                updateFirst (fun t => t.id == booking.ticket_type_id)
                  (fun t => { t with quantity_sold := t.quantity_sold + booking.quantity })
                  s3.ticket_types
              { s3 with ticket_types := tts }
            else s1
        else s1
      .ok (s2, ⟨checkout_status.status, checkout_status.payment_status,
                some checkout_status.amount_total, some checkout_status.currency⟩)

/-- A successfully verified+parsed webhook (`stripe_checkout.handle_webhook`);
verification failure raises before any write, leaving the store unchanged. -/
structure WebhookResponse where
  event_type : String
  session_id : String
  payment_status : String
deriving Repr, DecidableEq

/-- `POST /webhook/stripe` (`stripe_webhook`), success path after the
webhook is verified and parsed. -/
def stripe_webhook (s : Store) (webhook_response : WebhookResponse) : Store :=
  if webhook_response.event_type == "checkout.session.completed" then
    let txs :=
      updateFirst (fun t => t.session_id == webhook_response.session_id)
        (fun t => { t with payment_status := webhook_response.payment_status })
        s.payment_transactions
    { s with payment_transactions := txs }
  else s

/-- The QR image produced by `qrcode`: what matters to the spec is the
payload handed to `qr.add_data`, which the scanned image decodes back to. -/
structure QRImage where
  data : String
deriving Repr, DecidableEq

/-- `GET /bookings/{booking_id}/qr` (`get_booking_qr`).  The store is
returned unchanged (the handler performs no writes).  Python truthiness:
`not booking.get("qr_code_data")` is true for a missing token and for the
empty string. -/
def get_booking_qr (s : Store) (booking_id user_id : String) :
    Except HTTPError (Store × QRImage) :=
  match s.bookings.find? (fun b => b.id == booking_id) with
  | none => .error ⟨404, "Booking not found"⟩
  | some booking =>
    if booking.user_id != user_id then .error ⟨403, "Not authorized"⟩
    else
      match booking.qr_code_data with
      | none => .error ⟨400, "Booking not confirmed or QR code not available"⟩
      | some qr =>
        if booking.status != "confirmed" || qr == "" then
          .error ⟨400, "Booking not confirmed or QR code not available"⟩
        else
          .ok (s, ⟨qr⟩)

/-- `POST /auth/session` (`create_session`), after the identity provider
returned `(email, name, session_token)`.  Returns the store and the
`is_new_user` flag.  The first user ever created (`count_documents == 0`)
gets role `admin`, later new users get `attendee`. -/
def create_session (s : Store) (email name session_token fresh_user_id : String) :
    Store × Bool :=
  match s.users.find? (fun u => u.email == email) with
  | some existing =>
    ({ s with user_sessions := s.user_sessions ++ [⟨existing.id, session_token⟩] }, false)
  | none =>
    let default_role := if s.users.length == 0 then "admin" else "attendee"
    let user : UserRec := ⟨fresh_user_id, email, name, default_role⟩
    let s1 : Store := { s with users := s.users ++ [user] }
    ({ s1 with user_sessions := s1.user_sessions ++ [⟨user.id, session_token⟩] }, true)

/-- `PATCH /auth/select-role` (`select_role`).  `user` is the caller's
stored record, as resolved by `require_auth`. -/
def select_role (s : Store) (user : UserRec) (role : String) :
    Except HTTPError (Store × String) :=
  if role != "attendee" && role != "organizer" then
    .error ⟨400, "Invalid role. Must be 'attendee' or 'organizer'"⟩
  else if user.role == "admin" then
    .error ⟨403, "Cannot change admin role"⟩
  else
    let us := updateFirst (fun u => u.id == user.id) (fun u => { u with role := role }) s.users
    .ok ({ s with users := us }, role)

/-- One committed API operation against the store, with the external
inputs (request data, fresh UUIDs, provider answers) carried as data. -/
inductive Op where
  | createBooking (user_id : String) (booking_data : BookingCreate) (fresh_id fresh_qr : String)
  | checkout (user_id booking_id session_id fresh_tx_id : String)
  | reconcile (user_id session_id : String) (checkout_status : CheckoutStatusResponse)
      (fresh_qr : String)
  | webhook (webhook_response : WebhookResponse)
deriving Repr, DecidableEq

/-- Run one operation; a raised `HTTPException` commits nothing. -/
def applyOp (s : Store) : Op → Store
  | .createBooking uid d fid fqr =>
    match create_booking s uid d fid fqr with
    | .ok (s', _) => s'
    | .error _ => s
  | .checkout uid bid sid ftx =>
    match create_checkout_session s uid bid sid ftx with
    | .ok (s', _) => s'
    | .error _ => s
  | .reconcile uid sid cs fqr =>
    match check_payment_status s uid sid cs fqr with
    | .ok (s', _) => s'
    | .error _ => s
  | .webhook wr => stripe_webhook s wr

/-- Run a sequence of operations left to right. -/
def runOps (s : Store) (ops : List Op) : Store :=
  ops.foldl applyOp s

/-- The quantity a booking contributes to tier `tid`'s confirmed total. -/
def confirmedQty (tid : String) (b : Booking) : Int :=
  if b.ticket_type_id == tid && b.status == "confirmed" then b.quantity else 0

/-- Sum of the quantities of confirmed bookings against tier id `tid`. -/
def sumConfirmed (l : List Booking) (tid : String) : Int :=
  (l.map (confirmedQty tid)).sum

/-- The booking document `create_booking` writes, given the tier it found. -/
def newBooking (uid : String) (d : BookingCreate) (tt : TicketType) (fid fqr : String) : Booking :=
  { id := fid
    user_id := uid
    event_id := d.event_id
    ticket_type_id := d.ticket_type_id
    quantity := d.quantity
    total_price := tt.price * d.quantity
    status := if tt.price * d.quantity > 0 then "pending" else "confirmed"
    payment_intent_id := none
    qr_code_data := if tt.price * d.quantity == 0 then some fqr else none }

/-- `$inc quantity_sold` on the first tier with id `tid`. -/
def incTier (tid : String) (q : Int) (l : List TicketType) : List TicketType :=
  updateFirst (fun t => t.id == tid)
    (fun t => { t with quantity_sold := t.quantity_sold + q }) l

/-- The transaction refresh `check_payment_status` writes. -/
def refreshTx (sid : String) (cs : CheckoutStatusResponse) (l : List PaymentTransaction) :
    List PaymentTransaction :=
  updateFirst (fun t => t.session_id == sid)
    (fun t => { t with payment_status := cs.payment_status, status := cs.status }) l

/-- The booking confirmation `check_payment_status` writes. -/
def confirmBooking (bid fqr : String) (l : List Booking) : List Booking :=
  updateFirst (fun b => b.id == bid)
    (fun b => { b with status := "confirmed", qr_code_data := some fqr }) l

/-- The store invariant maintained by the committed operations (C1, as
amended): duplicate-free tier ids, nonnegative tier prices, nonnegative
booking quantities, and for every tier the confirmed-booking total equals
`quantity_sold`, which is nonnegative. -/
def Inv (s : Store) : Prop :=
  (s.ticket_types.map TicketType.id).Nodup ∧
  (∀ t ∈ s.ticket_types, 0 ≤ t.price) ∧
  (∀ b ∈ s.bookings, 0 ≤ b.quantity) ∧
  (∀ t ∈ s.ticket_types, sumConfirmed s.bookings t.id = t.quantity_sold ∧ 0 ≤ t.quantity_sold)

instance (s : Store) : Decidable (Inv s) := by unfold Inv; infer_instance

/-- Requested quantities of a trace's `CreateBooking` operations are
at least 1 (the spec's data model: booking `quantity (≥1)`). -/
def opQuantityOK : Op → Bool
  | .createBooking _ d _ _ => decide (1 ≤ d.quantity)
  | _ => true

/-- Operations that are reconciliations not observing
`payment_status = "paid"` from the provider. -/
def reconcileNotPaid : Op → Bool
  | .reconcile _ _ cs _ => cs.payment_status != "paid"
  | _ => false

/-- Positional monotonicity of booking status between two snapshots of
the `bookings` collection: a booking that was confirmed is untouched, and
a status change can only be pending → confirmed. -/
def bookingsMono (l l' : List Booking) : Prop :=
  ∀ (i : Nat) (b b' : Booking), l[i]? = some b → l'[i]? = some b' →
    (b.status = "confirmed" → b' = b) ∧
    (b'.status = b.status ∨ (b.status = "pending" ∧ b'.status = "confirmed"))

/-- A store with one active event, a tier of capacity 1 (price 10, none
sold), two pending paid bookings of quantity 1 each against it, and their
two pending payment sessions. -/
def c1Store : Store :=
  { users := [⟨"u1", "a@x", "A", "attendee"⟩]
    user_sessions := []
    events := [⟨"e1", "u0", "active"⟩]
    ticket_types := [⟨"t1", "e1", "VIP", 10, 1, 0⟩]
    bookings := [⟨"b1", "u1", "e1", "t1", 1, 10, "pending", some "s1", none⟩,
                 ⟨"b2", "u1", "e1", "t1", 1, 10, "pending", some "s2", none⟩]
    payment_transactions := [⟨"p1", "s1", "b1", "u1", 10, "pending", "initiated"⟩,
                             ⟨"p2", "s2", "b2", "u1", 10, "pending", "initiated"⟩] }

/-- Two sequential reconciliations in which the provider reports both
sessions of `c1Store` as paid. -/
def c1Ops : List Op :=
  [.reconcile "u1" "s1" ⟨"complete", "paid", 1000, "usd"⟩ "qr1",
   .reconcile "u1" "s2" ⟨"complete", "paid", 1000, "usd"⟩ "qr2"]

/-- A store with one confirmed booking (with redemption token) and one
pending booking, both owned by `u1`. -/
def c8Store : Store :=
  { users := [⟨"u1", "a@x", "A", "attendee"⟩]
    user_sessions := []
    events := [⟨"e1", "u0", "active"⟩]
    ticket_types := [⟨"t1", "e1", "GA", 0, 5, 1⟩]
    bookings := [⟨"b1", "u1", "e1", "t1", 1, 0, "confirmed", none, some "tok-1"⟩,
                 ⟨"b2", "u1", "e1", "t1", 1, 0, "pending", none, none⟩]
    payment_transactions := [] }

/-- The store after `select_role` overwrote role of the first user with
id `uid`. -/
def setRole (s : Store) (uid role : String) : Store :=
  { s with users :=
      updateFirst (fun v => v.id == uid) (fun v => { v with role := role }) s.users }

/-- A plain (non-admin) user. -/
def c9User : UserRec := ⟨"u1", "a@x", "A", "attendee"⟩

/-- A store containing just the non-admin user `c9User`. -/
def c9Store : Store :=
  { users := [c9User]
    user_sessions := []
    events := []
    ticket_types := []
    bookings := []
    payment_transactions := [] }

/-- A completely empty store. -/
def emptyStore : Store :=
  { users := []
    user_sessions := []
    events := []
    ticket_types := []
    bookings := []
    payment_transactions := [] }

/-! ### Generic lemmas about `updateFirst`, `find?` and `sumConfirmed` -/

theorem mem_updateFirst {α} {p : α → Bool} {f : α → α} {l : List α} {y : α}
    (h : y ∈ updateFirst p f l) : y ∈ l ∨ ∃ x ∈ l, p x = true ∧ y = f x := by
  induction l with
  | nil => simp [updateFirst] at h
  | cons a l ih =>
    by_cases ha : p a
    · simp only [updateFirst, if_pos ha] at h
      rcases List.mem_cons.mp h with rfl | hy
      · exact Or.inr ⟨a, List.mem_cons_self a l, ha, rfl⟩
      · exact Or.inl (List.mem_cons_of_mem _ hy)
    · simp only [updateFirst, if_neg ha] at h
      rcases List.mem_cons.mp h with rfl | hy
      · exact Or.inl (List.mem_cons_self _ _)
      · rcases ih hy with h' | ⟨x, hx, hpx, hyx⟩
        · exact Or.inl (List.mem_cons_of_mem _ h')
        · exact Or.inr ⟨x, List.mem_cons_of_mem _ hx, hpx, hyx⟩

theorem map_updateFirst_eq {α β} (g : α → β) (p : α → Bool) (f : α → α) (l : List α)
    (hf : ∀ x, g (f x) = g x) : (updateFirst p f l).map g = l.map g := by
  induction l with
  | nil => rfl
  | cons a l ih =>
    by_cases ha : p a
    · simp [updateFirst, ha, hf]
    · simp [updateFirst, ha, ih]

/-- Decompose a list around the first element matched by `find?`, and
describe `updateFirst` on it. -/
theorem find?_decomp {α} {p : α → Bool} {l : List α} {a : α} (h : l.find? p = some a) :
    ∃ l1 l2, l = l1 ++ a :: l2 ∧ (∀ x ∈ l1, ¬ p x = true) ∧ p a = true ∧
      ∀ f : α → α, updateFirst p f l = l1 ++ f a :: l2 := by
  induction l with
  | nil => simp at h
  | cons x xs ih =>
    by_cases hx : p x
    · rw [List.find?_cons_of_pos _ hx] at h
      obtain rfl : x = a := by injection h
      exact ⟨[], xs, rfl, by simp, hx, fun f => by simp [updateFirst, hx]⟩
    · rw [List.find?_cons_of_neg _ hx] at h
      obtain ⟨l1, l2, rfl, h1, h2, h3⟩ := ih h
      refine ⟨x :: l1, l2, rfl, ?_, h2, fun f => by simp [updateFirst, hx, h3 f]⟩
      intro y hy
      rcases List.mem_cons.mp hy with rfl | hy'
      · exact hx
      · exact h1 y hy'

/-- `find?` with the same predicate after `updateFirst`, when the update
keeps the predicate true on the updated element. -/
theorem find?_append_of_none {α} (p : α → Bool) (l1 l2 : List α)
    (h1 : ∀ x ∈ l1, ¬ p x = true) : (l1 ++ l2).find? p = l2.find? p := by
  induction l1 with
  | nil => rfl
  | cons z zs ih =>
    simp only [List.cons_append, List.find?_cons_of_neg _ (h1 z (List.mem_cons_self z zs))]
    exact ih (fun y hy => h1 y (List.mem_cons_of_mem _ hy))

theorem find?_updateFirst {α} {p : α → Bool} {f : α → α} {l : List α} {a : α}
    (h : l.find? p = some a) (hf : p (f a) = true) :
    (updateFirst p f l).find? p = some (f a) := by
  obtain ⟨l1, l2, rfl, h1, h2, h3⟩ := find?_decomp h
  rw [h3 f, find?_append_of_none p l1 _ h1, List.find?_cons_of_pos _ hf]

/-- Membership in `updateFirst` keyed by a duplicate-free key: each
surviving element either kept its (different) key untouched, or is the
updated image of the unique element carrying key `x`. -/
theorem mem_updateFirst_key {α} (key : α → String) (x : String) (f : α → α) (l : List α)
    (hnd : (l.map key).Nodup) {y : α} (h : y ∈ updateFirst (fun t => key t == x) f l) :
    (y ∈ l ∧ key y ≠ x) ∨ ∃ t ∈ l, key t = x ∧ y = f t := by
  induction l with
  | nil => simp [updateFirst] at h
  | cons a l ih =>
    simp only [List.map_cons, List.nodup_cons] at hnd
    by_cases ha : (key a == x) = true
    · simp only [updateFirst, if_pos ha] at h
      rcases List.mem_cons.mp h with rfl | hy
      · exact Or.inr ⟨a, List.mem_cons_self a l, beq_iff_eq.mp ha, rfl⟩
      · refine Or.inl ⟨List.mem_cons_of_mem _ hy, fun hk => ?_⟩
        exact hnd.1 (by rw [beq_iff_eq.mp ha, ← hk]; exact List.mem_map_of_mem key hy)
    · simp only [updateFirst, if_neg ha] at h
      rcases List.mem_cons.mp h with rfl | hy
      · exact Or.inl ⟨List.mem_cons_self _ _, fun hk => ha (beq_iff_eq.mpr hk)⟩
      · rcases ih hnd.2 hy with ⟨h1, h2⟩ | ⟨t, ht, h1, h2⟩
        · exact Or.inl ⟨List.mem_cons_of_mem _ h1, h2⟩
        · exact Or.inr ⟨t, List.mem_cons_of_mem _ ht, h1, h2⟩

theorem sumConfirmed_append (l1 l2 : List Booking) (tid : String) :
    sumConfirmed (l1 ++ l2) tid = sumConfirmed l1 tid + sumConfirmed l2 tid := by
  simp [sumConfirmed]

theorem sumConfirmed_cons (b : Booking) (l : List Booking) (tid : String) :
    sumConfirmed (b :: l) tid = confirmedQty tid b + sumConfirmed l tid := by
  simp [sumConfirmed]

theorem sumConfirmed_updateFirst (p : Booking → Bool) (f : Booking → Booking)
    (l : List Booking) (tid : String)
    (hf : ∀ b, confirmedQty tid (f b) = confirmedQty tid b) :
    sumConfirmed (updateFirst p f l) tid = sumConfirmed l tid := by
  induction l with
  | nil => rfl
  | cons a l ih =>
    by_cases ha : p a
    · simp only [updateFirst, if_pos ha, sumConfirmed_cons, hf]
    · simp only [updateFirst, if_neg ha, sumConfirmed_cons, ih]

/-- The inventory step shared by the free-booking path and the
paid-reconciliation path: confirming quantity `q` against tier `tid0`
while incrementing that tier's counter preserves the per-tier equality
`sumConfirmed = quantity_sold` and the lower bound `0 ≤ quantity_sold`. -/
theorem tierInv_step (tiers : List TicketType) (bks bks' : List Booking)
    (tid0 : String) (q : Int) (hq : 0 ≤ q)
    (hnd : (tiers.map TicketType.id).Nodup)
    (hinv : ∀ t ∈ tiers, sumConfirmed bks t.id = t.quantity_sold ∧ 0 ≤ t.quantity_sold)
    (hdelta : ∀ x, sumConfirmed bks' x = sumConfirmed bks x + (if tid0 = x then q else 0)) :
    ∀ t' ∈ updateFirst (fun t => t.id == tid0)
        (fun t => { t with quantity_sold := t.quantity_sold + q }) tiers,
      sumConfirmed bks' t'.id = t'.quantity_sold ∧ 0 ≤ t'.quantity_sold := by
  intro t' ht'
  rcases mem_updateFirst_key TicketType.id tid0 _ tiers hnd ht' with ⟨hmem, hne⟩ | ⟨t, hmem, hkey, rfl⟩
  · obtain ⟨h1, h2⟩ := hinv t' hmem
    rw [hdelta, if_neg (fun hh => hne hh.symm), add_zero]
    exact ⟨h1, h2⟩
  · obtain ⟨h1, h2⟩ := hinv t hmem
    constructor
    · show sumConfirmed bks' t.id = t.quantity_sold + q
      rw [hdelta, if_pos hkey.symm, h1]
    · show 0 ≤ t.quantity_sold + q
      omega

/-! ### Characterizations of the handler branches -/

theorem create_booking_ok (s : Store) (uid : String) (d : BookingCreate) (fid fqr : String)
    (ev : EventRec) (tt : TicketType)
    (hev : s.events.find? (fun e => e.id == d.event_id) = some ev)
    (hact : ev.status = "active")
    (htt : s.ticket_types.find? (fun t => t.id == d.ticket_type_id) = some tt)
    (hevid : tt.event_id = d.event_id)
    (havail : ¬ tt.quantity_available - tt.quantity_sold < d.quantity) :
    create_booking s uid d fid fqr =
      .ok (if tt.price * d.quantity == 0 then
             { s with bookings := s.bookings ++ [newBooking uid d tt fid fqr],
                      ticket_types := incTier d.ticket_type_id d.quantity s.ticket_types }
           else { s with bookings := s.bookings ++ [newBooking uid d tt fid fqr] },
           ⟨newBooking uid d tt fid fqr, decide (tt.price * d.quantity > 0)⟩) := by
  unfold create_booking
  rw [hev, htt]
  simp only [hact, hevid, bne_self_eq_false, Bool.false_eq_true, if_false, if_neg havail,
    newBooking, incTier]

theorem create_booking_insufficient (s : Store) (uid : String) (d : BookingCreate)
    (fid fqr : String) (ev : EventRec) (tt : TicketType)
    (hev : s.events.find? (fun e => e.id == d.event_id) = some ev)
    (hact : ev.status = "active")
    (htt : s.ticket_types.find? (fun t => t.id == d.ticket_type_id) = some tt)
    (hevid : tt.event_id = d.event_id)
    (havail : tt.quantity_available - tt.quantity_sold < d.quantity) :
    create_booking s uid d fid fqr = .error ⟨400, "Not enough tickets available"⟩ := by
  unfold create_booking
  rw [hev, htt]
  simp only [hact, hevid, bne_self_eq_false, Bool.false_eq_true, if_false, if_pos havail]

/-- Idempotence guard: a transaction already stored as paid short-circuits. -/
theorem check_payment_status_guard (s : Store) (uid sid : String)
    (cs : CheckoutStatusResponse) (fqr : String) (tx : PaymentTransaction)
    (htx : s.payment_transactions.find? (fun t => t.session_id == sid) = some tx)
    (hpaid : tx.payment_status = "paid") :
    check_payment_status s uid sid cs fqr = .ok (s, ⟨"completed", "paid", none, none⟩) := by
  unfold check_payment_status
  rw [htx]
  simp [hpaid]

/-- Refresh branch when the provider does not report "paid": only the
transaction record is rewritten. -/
theorem check_payment_status_not_paid (s : Store) (uid sid : String)
    (cs : CheckoutStatusResponse) (fqr : String) (tx : PaymentTransaction)
    (htx : s.payment_transactions.find? (fun t => t.session_id == sid) = some tx)
    (hnot : tx.payment_status ≠ "paid") (hcs : cs.payment_status ≠ "paid") :
    check_payment_status s uid sid cs fqr =
      .ok ({ s with payment_transactions := refreshTx sid cs s.payment_transactions },
           ⟨cs.status, cs.payment_status, some cs.amount_total, some cs.currency⟩) := by
  unfold check_payment_status
  rw [htx]
  simp only [beq_iff_eq, hnot, if_false, hcs, refreshTx]

/-- Refresh branch when the provider reports "paid" and the linked booking
is still pending: booking confirmed, fresh QR token, tier counter bumped. -/
theorem check_payment_status_paid_pending (s : Store) (uid sid : String)
    (cs : CheckoutStatusResponse) (fqr : String) (tx : PaymentTransaction) (b0 : Booking)
    (htx : s.payment_transactions.find? (fun t => t.session_id == sid) = some tx)
    (hnot : tx.payment_status ≠ "paid") (hcs : cs.payment_status = "paid")
    (hb : s.bookings.find? (fun b => b.id == tx.booking_id) = some b0)
    (hpend : b0.status = "pending") :
    check_payment_status s uid sid cs fqr =
      .ok ({ s with payment_transactions := refreshTx sid cs s.payment_transactions,
                    bookings := confirmBooking tx.booking_id fqr s.bookings,
                    ticket_types := incTier b0.ticket_type_id b0.quantity s.ticket_types },
           ⟨cs.status, cs.payment_status, some cs.amount_total, some cs.currency⟩) := by
  unfold check_payment_status
  rw [htx]
  simp only [beq_iff_eq, hnot, if_false, hcs, if_true, hb, hpend, refreshTx, confirmBooking,
    incTier]

/-- Refresh branch when the provider reports "paid" but the linked booking
is absent or not pending: only the transaction record is rewritten. -/
theorem check_payment_status_paid_other (s : Store) (uid sid : String)
    (cs : CheckoutStatusResponse) (fqr : String) (tx : PaymentTransaction)
    (htx : s.payment_transactions.find? (fun t => t.session_id == sid) = some tx)
    (hnot : tx.payment_status ≠ "paid") (hcs : cs.payment_status = "paid")
    (hb : ∀ b0, s.bookings.find? (fun b => b.id == tx.booking_id) = some b0 →
      b0.status ≠ "pending") :
    check_payment_status s uid sid cs fqr =
      .ok ({ s with payment_transactions := refreshTx sid cs s.payment_transactions },
           ⟨cs.status, cs.payment_status, some cs.amount_total, some cs.currency⟩) := by
  unfold check_payment_status
  rw [htx]
  cases hfb : s.bookings.find? (fun b => b.id == tx.booking_id) with
  | none => simp only [beq_iff_eq, hnot, if_false, hcs, if_true, hfb, refreshTx]
  | some b0 =>
    have := hb b0 hfb
    simp only [beq_iff_eq, hnot, if_false, hcs, if_true, hfb, this, refreshTx]

theorem applyOp_createBooking_error {s : Store} {uid : String} {d : BookingCreate}
    {fid fqr : String} {e : HTTPError} (h : create_booking s uid d fid fqr = .error e) :
    applyOp s (.createBooking uid d fid fqr) = s := by
  simp only [applyOp, h]

theorem applyOp_createBooking_ok {s : Store} {uid : String} {d : BookingCreate}
    {fid fqr : String} {s' : Store} {r : BookingResult}
    (h : create_booking s uid d fid fqr = .ok (s', r)) :
    applyOp s (.createBooking uid d fid fqr) = s' := by
  simp only [applyOp, h]

theorem applyOp_checkout_error {s : Store} {uid bid sid ftx : String} {e : HTTPError}
    (h : create_checkout_session s uid bid sid ftx = .error e) :
    applyOp s (.checkout uid bid sid ftx) = s := by
  simp only [applyOp, h]

theorem applyOp_checkout_ok {s : Store} {uid bid sid ftx : String} {s' : Store} {r : String}
    (h : create_checkout_session s uid bid sid ftx = .ok (s', r)) :
    applyOp s (.checkout uid bid sid ftx) = s' := by
  simp only [applyOp, h]

theorem applyOp_reconcile_error {s : Store} {uid sid : String} {cs : CheckoutStatusResponse}
    {fqr : String} {e : HTTPError} (h : check_payment_status s uid sid cs fqr = .error e) :
    applyOp s (.reconcile uid sid cs fqr) = s := by
  simp only [applyOp, h]

theorem applyOp_reconcile_ok {s : Store} {uid sid : String} {cs : CheckoutStatusResponse}
    {fqr : String} {s' : Store} {r : PaymentStatusResponse}
    (h : check_payment_status s uid sid cs fqr = .ok (s', r)) :
    applyOp s (.reconcile uid sid cs fqr) = s' := by
  simp only [applyOp, h]

/-- Inversion: a successful `create_booking` implies all preconditions held. -/
theorem create_booking_ok_inv {s : Store} {uid : String} {d : BookingCreate}
    {fid fqr : String} {s' : Store} {r : BookingResult}
    (h : create_booking s uid d fid fqr = .ok (s', r)) :
    ∃ ev tt, s.events.find? (fun e => e.id == d.event_id) = some ev ∧ ev.status = "active" ∧
      s.ticket_types.find? (fun t => t.id == d.ticket_type_id) = some tt ∧
      tt.event_id = d.event_id ∧
      ¬ tt.quantity_available - tt.quantity_sold < d.quantity := by
  unfold create_booking at h
  cases hev : s.events.find? (fun e => e.id == d.event_id) with
  | none => rw [hev] at h; simp at h
  | some ev =>
    rw [hev] at h
    dsimp only at h
    by_cases hact : ev.status = "active"
    · rw [if_neg (by simp [hact])] at h
      cases htt : s.ticket_types.find? (fun t => t.id == d.ticket_type_id) with
      | none => rw [htt] at h; simp at h
      | some tt =>
        rw [htt] at h
        dsimp only at h
        by_cases hevid : tt.event_id = d.event_id
        · rw [if_neg (by simp [hevid])] at h
          by_cases havail : tt.quantity_available - tt.quantity_sold < d.quantity
          · rw [if_pos havail] at h; simp at h
          · exact ⟨ev, tt, rfl, hact, rfl, hevid, havail⟩
        · rw [if_pos (by simp [hevid])] at h; simp at h
    · rw [if_pos (by simp [hact])] at h; simp at h

/-- Inversion: a successful `create_checkout_session` implies all
preconditions held, and characterizes the result. -/
theorem create_checkout_session_ok_inv {s : Store} {uid bid sid ftx : String} {s' : Store}
    {r : String} (h : create_checkout_session s uid bid sid ftx = .ok (s', r)) :
    ∃ b0, s.bookings.find? (fun b => b.id == bid) = some b0 ∧ b0.user_id = uid ∧
      b0.status = "pending" ∧ r = sid ∧
      s' = { s with
        payment_transactions := s.payment_transactions ++
          [⟨ftx, sid, b0.id, uid, b0.total_price, "pending", "initiated"⟩],
        bookings := updateFirst (fun b => b.id == b0.id)
          (fun b => { b with payment_intent_id := some sid }) s.bookings } := by
  unfold create_checkout_session at h
  cases hb : s.bookings.find? (fun b => b.id == bid) with
  | none => rw [hb] at h; simp at h
  | some b0 =>
    rw [hb] at h
    dsimp only at h
    by_cases huid : b0.user_id = uid
    · rw [if_neg (by simp [huid])] at h
      by_cases hst : b0.status = "pending"
      · rw [if_neg (by simp [hst])] at h
        injection h with h
        injection h with h1 h2
        exact ⟨b0, rfl, huid, hst, h2.symm, h1.symm⟩
      · rw [if_pos (by simp [hst])] at h; simp at h
    · rw [if_pos (by simp [huid])] at h; simp at h

theorem incTier_map_id (tid : String) (q : Int) (l : List TicketType) :
    (incTier tid q l).map TicketType.id = l.map TicketType.id :=
  map_updateFirst_eq _ _ _ _ (fun _ => rfl)

theorem inv_create_booking (s : Store) (uid : String) (d : BookingCreate) (fid fqr : String)
    (hq : 1 ≤ d.quantity) (h : Inv s) : Inv (applyOp s (.createBooking uid d fid fqr)) := by
  cases hres : create_booking s uid d fid fqr with
  | error e => rw [applyOp_createBooking_error hres]; exact h
  | ok p =>
    obtain ⟨s', r⟩ := p
    rw [applyOp_createBooking_ok hres]
    obtain ⟨ev, tt, hev, hact, htt, hevid, havail⟩ := create_booking_ok_inv hres
    rw [create_booking_ok s uid d fid fqr ev tt hev hact htt hevid havail] at hres
    injection hres with hres
    injection hres with h1 h2
    subst h1
    obtain ⟨hnd, hpr, hbq, htier⟩ := h
    by_cases hz : tt.price * (d.quantity : ℚ) = 0
    · rw [if_pos (beq_iff_eq.mpr hz)]
      have hbst : (newBooking uid d tt fid fqr).status = "confirmed" := by
        simp [newBooking, hz]
      refine ⟨?_, ?_, ?_, ?_⟩
      · show ((incTier d.ticket_type_id d.quantity s.ticket_types).map TicketType.id).Nodup
        rw [incTier_map_id]
        exact hnd
      · intro t ht
        rcases mem_updateFirst ht with hmem | ⟨x, hx, _, rfl⟩
        · exact hpr t hmem
        · exact hpr x hx
      · intro bb hbb
        rcases List.mem_append.mp hbb with hbb | hbb
        · exact hbq bb hbb
        · rw [List.mem_singleton.mp hbb]
          show 0 ≤ d.quantity
          omega
      · refine tierInv_step s.ticket_types s.bookings _ d.ticket_type_id d.quantity
          (by omega) hnd htier ?_
        intro x
        by_cases hx : d.ticket_type_id = x <;>
          simp [sumConfirmed_append, sumConfirmed, confirmedQty, newBooking, hz, hx]
    · rw [if_neg (by simpa using hz)]
      have htt_mem := List.mem_of_find?_eq_some htt
      have hq0 : (0 : ℚ) ≤ (d.quantity : ℚ) := by exact_mod_cast (by omega : (0:Int) ≤ d.quantity)
      have hpos : 0 < tt.price * (d.quantity : ℚ) :=
        lt_of_le_of_ne (mul_nonneg (hpr tt htt_mem) hq0) (Ne.symm hz)
      have hbst : (newBooking uid d tt fid fqr).status = "pending" := by
        simp [newBooking, hpos]
      refine ⟨hnd, hpr, ?_, ?_⟩
      · intro bb hbb
        rcases List.mem_append.mp hbb with hbb | hbb
        · exact hbq bb hbb
        · rw [List.mem_singleton.mp hbb]
          show 0 ≤ d.quantity
          omega
      · intro t ht
        have hold := htier t ht
        have hsum : sumConfirmed (s.bookings ++ [newBooking uid d tt fid fqr]) t.id =
            sumConfirmed s.bookings t.id := by
          simp [sumConfirmed_append, sumConfirmed, confirmedQty, newBooking, hpos]
        exact ⟨hsum ▸ hold.1, hold.2⟩

theorem sumConfirmed_setPid (bid sid : String) (l : List Booking) (tid : String) :
    sumConfirmed (updateFirst (fun b => b.id == bid)
      (fun b => { b with payment_intent_id := some sid }) l) tid = sumConfirmed l tid :=
  sumConfirmed_updateFirst _ _ _ _ (fun _ => rfl)

theorem inv_checkout (s : Store) (uid bid sid ftx : String) (h : Inv s) :
    Inv (applyOp s (.checkout uid bid sid ftx)) := by
  cases hres : create_checkout_session s uid bid sid ftx with
  | error e => rw [applyOp_checkout_error hres]; exact h
  | ok p =>
    obtain ⟨s', r⟩ := p
    rw [applyOp_checkout_ok hres]
    obtain ⟨b0, hb, huid, hst, hr, hs'⟩ := create_checkout_session_ok_inv hres
    subst hs'
    obtain ⟨hnd, hpr, hbq, htier⟩ := h
    refine ⟨hnd, hpr, ?_, ?_⟩
    · intro bb hbb
      rcases mem_updateFirst hbb with hmem | ⟨x, hx, _, rfl⟩
      · exact hbq bb hmem
      · exact hbq x hx
    · intro t ht
      dsimp only at ht ⊢
      have hold := htier t ht
      rw [sumConfirmed_setPid]
      exact hold

theorem inv_reconcile (s : Store) (uid sid : String) (cs : CheckoutStatusResponse)
    (fqr : String) (h : Inv s) : Inv (applyOp s (.reconcile uid sid cs fqr)) := by
  cases htx : s.payment_transactions.find? (fun t => t.session_id == sid) with
  | none =>
    have herr : check_payment_status s uid sid cs fqr =
        .error ⟨404, "Transaction not found"⟩ := by
      unfold check_payment_status; rw [htx]
    rw [applyOp_reconcile_error herr]; exact h
  | some tx =>
    by_cases hpaid : tx.payment_status = "paid"
    · rw [applyOp_reconcile_ok (check_payment_status_guard s uid sid cs fqr tx htx hpaid)]
      exact h
    · by_cases hcs : cs.payment_status = "paid"
      · cases hfb : s.bookings.find? (fun b => b.id == tx.booking_id) with
        | none =>
          rw [applyOp_reconcile_ok (check_payment_status_paid_other s uid sid cs fqr tx htx
            hpaid hcs (fun b1 hb1 => Option.noConfusion (hfb ▸ hb1)))]
          exact h
        | some b0 =>
          by_cases hbpend : b0.status = "pending"
          · rw [applyOp_reconcile_ok (check_payment_status_paid_pending s uid sid cs fqr
              tx b0 htx hpaid hcs hfb hbpend)]
            obtain ⟨hnd, hpr, hbq, htier⟩ := h
            refine ⟨?_, ?_, ?_, ?_⟩
            · show ((incTier b0.ticket_type_id b0.quantity s.ticket_types).map
                TicketType.id).Nodup
              rw [incTier_map_id]
              exact hnd
            · intro t ht
              rcases mem_updateFirst ht with hmem | ⟨x, hx, _, rfl⟩
              · exact hpr t hmem
              · exact hpr x hx
            · intro bb hbb
              rcases mem_updateFirst hbb with hmem | ⟨x, hx, _, rfl⟩
              · exact hbq bb hmem
              · exact hbq x hx
            · refine tierInv_step s.ticket_types s.bookings _ b0.ticket_type_id b0.quantity
                (hbq b0 (List.mem_of_find?_eq_some hfb)) hnd htier ?_
              intro x
              obtain ⟨l1, l2, hdec, hpre, hppa, hupd⟩ := find?_decomp hfb
              rw [confirmBooking, hupd, hdec]
              by_cases hx : b0.ticket_type_id = x <;>
                simp [sumConfirmed_append, sumConfirmed_cons, confirmedQty, hbpend, hx] <;>
                omega
          · rw [applyOp_reconcile_ok (check_payment_status_paid_other s uid sid cs fqr tx htx
              hpaid hcs (fun b1 hb1 => by
                rw [hfb] at hb1
                injection hb1 with hb1
                rw [← hb1]
                exact hbpend))]
            exact h
      · rw [applyOp_reconcile_ok (check_payment_status_not_paid s uid sid cs fqr tx htx
          hpaid hcs)]
        exact h

theorem inv_webhook (s : Store) (wr : WebhookResponse) (h : Inv s) :
    Inv (applyOp s (.webhook wr)) := by
  show Inv (stripe_webhook s wr)
  unfold stripe_webhook
  by_cases he : (wr.event_type == "checkout.session.completed") = true
  · rw [if_pos he]; exact h
  · rw [if_neg he]; exact h

theorem inv_applyOp (s : Store) (op : Op) (hop : opQuantityOK op = true) (h : Inv s) :
    Inv (applyOp s op) := by
  cases op with
  | createBooking uid d fid fqr =>
    exact inv_create_booking s uid d fid fqr (by simpa [opQuantityOK] using hop) h
  | checkout uid bid sid ftx => exact inv_checkout s uid bid sid ftx h
  | reconcile uid sid cs fqr => exact inv_reconcile s uid sid cs fqr h
  | webhook wr => exact inv_webhook s wr h

theorem inv_runOps (s : Store) (ops : List Op) (hops : ∀ op ∈ ops, opQuantityOK op = true)
    (h : Inv s) : Inv (runOps s ops) := by
  induction ops generalizing s with
  | nil => exact h
  | cons op ops ih =>
    exact ih (applyOp s op) (fun o ho => hops o (List.mem_cons_of_mem _ ho))
      (inv_applyOp s op (hops op (List.mem_cons_self _ _)) h)

theorem length_updateFirst {α} (p : α → Bool) (f : α → α) (l : List α) :
    (updateFirst p f l).length = l.length := by
  induction l with
  | nil => rfl
  | cons a l ih =>
    by_cases ha : p a
    · simp [updateFirst, ha]
    · simp [updateFirst, ha, ih]

theorem bookingsMono_refl (l : List Booking) : bookingsMono l l := by
  intro i b b' h1 h2
  rw [h1] at h2
  injection h2 with h2
  subst h2
  exact ⟨fun _ => rfl, Or.inl rfl⟩

theorem bookingsMono_append (l l2 : List Booking) : bookingsMono l (l ++ l2) := by
  intro i b b' h1 h2
  obtain ⟨hi, _⟩ := List.getElem?_eq_some.mp h1
  rw [List.getElem?_append_left hi, h1] at h2
  injection h2 with h2
  subst h2
  exact ⟨fun _ => rfl, Or.inl rfl⟩

theorem bookingsMono_updateFirst (p : Booking → Bool) (f : Booking → Booking)
    (l : List Booking)
    (h : ∀ b0, l.find? p = some b0 →
      b0.status ≠ "confirmed" ∧
      ((f b0).status = b0.status ∨ (b0.status = "pending" ∧ (f b0).status = "confirmed"))) :
    bookingsMono l (updateFirst p f l) := by
  induction l with
  | nil => intro i b b' h1 h2; simp at h1
  | cons a l ih =>
    by_cases ha : p a
    · have hfa := h a (List.find?_cons_of_pos _ ha)
      intro i b b' h1 h2
      cases i with
      | zero =>
        simp only [updateFirst, if_pos ha, List.getElem?_cons_zero] at h1 h2
        injection h1 with h1
        injection h2 with h2
        subst h1
        subst h2
        exact ⟨fun hc => absurd hc hfa.1, hfa.2⟩
      | succ i =>
        simp only [updateFirst, if_pos ha, List.getElem?_cons_succ] at h1 h2
        rw [h1] at h2
        injection h2 with h2
        subst h2
        exact ⟨fun _ => rfl, Or.inl rfl⟩
    · intro i b b' h1 h2
      cases i with
      | zero =>
        simp only [updateFirst, if_neg ha, List.getElem?_cons_zero] at h1 h2
        injection h1 with h1
        injection h2 with h2
        subst h1
        subst h2
        exact ⟨fun _ => rfl, Or.inl rfl⟩
      | succ i =>
        simp only [updateFirst, if_neg ha, List.getElem?_cons_succ] at h1 h2
        exact ih (fun b0 hb0 => h b0 (by rw [List.find?_cons_of_neg _ ha]; exact hb0))
          i b b' h1 h2

theorem reconcile_not_paid_frame (s : Store) (uid sid : String)
    (cs : CheckoutStatusResponse) (fqr : String) (hcs : cs.payment_status ≠ "paid") :
    (applyOp s (.reconcile uid sid cs fqr)).bookings = s.bookings ∧
    (applyOp s (.reconcile uid sid cs fqr)).ticket_types = s.ticket_types := by
  cases htx : s.payment_transactions.find? (fun t => t.session_id == sid) with
  | none =>
    have herr : check_payment_status s uid sid cs fqr =
        .error ⟨404, "Transaction not found"⟩ := by
      unfold check_payment_status; rw [htx]
    rw [applyOp_reconcile_error herr]
    exact ⟨rfl, rfl⟩
  | some tx =>
    by_cases hpaid : tx.payment_status = "paid"
    · rw [applyOp_reconcile_ok (check_payment_status_guard s uid sid cs fqr tx htx hpaid)]
      exact ⟨rfl, rfl⟩
    · rw [applyOp_reconcile_ok (check_payment_status_not_paid s uid sid cs fqr tx htx
        hpaid hcs)]
      exact ⟨rfl, rfl⟩

theorem runOps_not_paid_frame (s : Store) (ops : List Op)
    (hops : ∀ op ∈ ops, reconcileNotPaid op = true) :
    (runOps s ops).bookings = s.bookings ∧ (runOps s ops).ticket_types = s.ticket_types := by
  induction ops generalizing s with
  | nil => exact ⟨rfl, rfl⟩
  | cons op ops ih =>
    have h0 := hops op (List.mem_cons_self _ _)
    cases op with
    | reconcile uid sid cs fqr =>
      have hcs : cs.payment_status ≠ "paid" := by simpa [reconcileNotPaid] using h0
      obtain ⟨hb, ht⟩ := reconcile_not_paid_frame s uid sid cs fqr hcs
      obtain ⟨hb', ht'⟩ := ih (applyOp s (.reconcile uid sid cs fqr))
        (fun o ho => hops o (List.mem_cons_of_mem _ ho))
      exact ⟨hb'.trans hb, ht'.trans ht⟩
    | createBooking uid d fid fqr => simp [reconcileNotPaid] at h0
    | checkout uid bid sid ftx => simp [reconcileNotPaid] at h0
    | webhook wr => simp [reconcileNotPaid] at h0

/-! ### The claims -/

/-- C1 (amended): starting from any store satisfying `Inv` (in particular
any store whose tiers all satisfy the claimed equality and bounds), after
any sequence of sequentially committed operations whose requested
quantities are ≥ 1, every tier's `quantity_sold` equals the sum of the
quantities of the confirmed bookings against it and is nonnegative.  The
original claim's upper bound `quantity_sold ≤ quantity_available` is NOT
preserved (see the counterexample): `check_payment_status` increments the
counter without re-checking availability, so sequential reconciliations
of paid bookings can oversell a tier. -/
theorem tier_inventory_invariant (s : Store) (ops : List Op)
    (hops : ∀ op ∈ ops, opQuantityOK op = true) (h : Inv s) :
    ∀ t ∈ (runOps s ops).ticket_types,
      sumConfirmed (runOps s ops).bookings t.id = t.quantity_sold ∧ 0 ≤ t.quantity_sold :=
  (inv_runOps s ops hops h).2.2.2

/-- Witness for C1 (amended) at the concrete store `c1Store` and trace
`c1Ops`. -/
theorem tier_inventory_invariant_witness :
    (∀ op ∈ c1Ops, opQuantityOK op = true) ∧ Inv c1Store ∧
    ∀ t ∈ (runOps c1Store c1Ops).ticket_types,
      sumConfirmed (runOps c1Store c1Ops).bookings t.id = t.quantity_sold ∧
      0 ≤ t.quantity_sold :=
  ⟨by decide, by decide, tier_inventory_invariant c1Store c1Ops (by decide) (by decide)⟩

/-- C1 is refuted as stated: `c1Store` satisfies the claimed invariant
(including `quantity_sold ≤ quantity_available` on every tier), yet after
the two sequential `ReconcilePaymentStatus` operations of `c1Ops` the
tier `t1` has `quantity_sold = 2 > 1 = quantity_available`. -/
theorem tier_inventory_invariant_counterexample :
    (∀ t ∈ c1Store.ticket_types,
        sumConfirmed c1Store.bookings t.id = t.quantity_sold ∧
        0 ≤ t.quantity_sold ∧ t.quantity_sold ≤ t.quantity_available) ∧
    (runOps c1Store c1Ops).ticket_types = [⟨"t1", "e1", "VIP", 10, 1, 2⟩] ∧
    ¬ (∀ t ∈ (runOps c1Store c1Ops).ticket_types,
        t.quantity_sold ≤ t.quantity_available) := by
  refine ⟨by decide, by decide, by decide⟩

/-- C2: when the event is active, the tier exists and belongs to it, and
the remaining availability is below the requested quantity,
`create_booking` fails with the InsufficientInventory error (HTTP 400,
"Not enough tickets available") and the store is left entirely
unchanged. -/
theorem insufficient_inventory_no_mutation (s : Store) (uid : String) (d : BookingCreate)
    (fid fqr : String) (ev : EventRec) (tt : TicketType)
    (hev : s.events.find? (fun e => e.id == d.event_id) = some ev)
    (hact : ev.status = "active")
    (htt : s.ticket_types.find? (fun t => t.id == d.ticket_type_id) = some tt)
    (hevid : tt.event_id = d.event_id)
    (hlow : tt.quantity_available - tt.quantity_sold < d.quantity) :
    create_booking s uid d fid fqr = .error ⟨400, "Not enough tickets available"⟩ ∧
    applyOp s (.createBooking uid d fid fqr) = s :=
  have herr := create_booking_insufficient s uid d fid fqr ev tt hev hact htt hevid hlow
  ⟨herr, applyOp_createBooking_error herr⟩

/-- Witness for C2: requesting 2 tickets from the capacity-1 tier of
`c1Store` fails and commits nothing. -/
theorem insufficient_inventory_no_mutation_witness :
    create_booking c1Store "u1" ⟨"e1", "t1", 2⟩ "b9" "q9" =
      .error ⟨400, "Not enough tickets available"⟩ ∧
    applyOp c1Store (.createBooking "u1" ⟨"e1", "t1", 2⟩ "b9" "q9") = c1Store :=
  insufficient_inventory_no_mutation c1Store "u1" ⟨"e1", "t1", 2⟩ "b9" "q9"
    ⟨"e1", "u0", "active"⟩ ⟨"t1", "e1", "VIP", 10, 1, 0⟩ (by decide) rfl (by decide) rfl
    (by decide)

/-- C3: a booking on a free tier (unit price 0) that passes the
preconditions is created already in status `confirmed` with the freshly
generated redemption token, the tier's `quantity_sold` is incremented by
the requested quantity in the same step, and no payment flow is entered
(`requires_payment = false`). -/
theorem free_booking_confirmed (s : Store) (uid : String) (d : BookingCreate)
    (fid fqr : String) (ev : EventRec) (tt : TicketType)
    (hev : s.events.find? (fun e => e.id == d.event_id) = some ev)
    (hact : ev.status = "active")
    (htt : s.ticket_types.find? (fun t => t.id == d.ticket_type_id) = some tt)
    (hevid : tt.event_id = d.event_id)
    (havail : ¬ tt.quantity_available - tt.quantity_sold < d.quantity)
    (hfree : tt.price = 0) :
    create_booking s uid d fid fqr = .ok
      ({ s with bookings := s.bookings ++ [newBooking uid d tt fid fqr],
                ticket_types := incTier d.ticket_type_id d.quantity s.ticket_types },
       ⟨newBooking uid d tt fid fqr, false⟩) ∧
    (newBooking uid d tt fid fqr).status = "confirmed" ∧
    (newBooking uid d tt fid fqr).qr_code_data = some fqr ∧
    (incTier d.ticket_type_id d.quantity s.ticket_types).find?
        (fun t => t.id == d.ticket_type_id) =
      some { tt with quantity_sold := tt.quantity_sold + d.quantity } := by
  have hz : tt.price * (d.quantity : ℚ) = 0 := by rw [hfree, zero_mul]
  refine ⟨?_, ?_, ?_, ?_⟩
  · rw [create_booking_ok s uid d fid fqr ev tt hev hact htt hevid havail,
      if_pos (beq_iff_eq.mpr hz)]
    simp [hz]
  · simp [newBooking, hz]
  · simp [newBooking, hz]
  · exact find?_updateFirst htt (by simpa using List.find?_some htt)

/-- Witness for C3: booking 2 tickets of the free tier of `c8Store`. -/
theorem free_booking_confirmed_witness :
    create_booking c8Store "u1" ⟨"e1", "t1", 2⟩ "b9" "q9" = .ok
      ({ c8Store with
          bookings := c8Store.bookings ++
            [newBooking "u1" ⟨"e1", "t1", 2⟩ ⟨"t1", "e1", "GA", 0, 5, 1⟩ "b9" "q9"],
          ticket_types := incTier "t1" 2 c8Store.ticket_types },
       ⟨newBooking "u1" ⟨"e1", "t1", 2⟩ ⟨"t1", "e1", "GA", 0, 5, 1⟩ "b9" "q9", false⟩) ∧
    (newBooking "u1" ⟨"e1", "t1", 2⟩ ⟨"t1", "e1", "GA", 0, 5, 1⟩ "b9" "q9").status =
      "confirmed" ∧
    (newBooking "u1" ⟨"e1", "t1", 2⟩ ⟨"t1", "e1", "GA", 0, 5, 1⟩ "b9" "q9").qr_code_data =
      some "q9" ∧
    (incTier "t1" 2 c8Store.ticket_types).find? (fun t => t.id == "t1") =
      some ⟨"t1", "e1", "GA", 0, 5, 3⟩ :=
  free_booking_confirmed c8Store "u1" ⟨"e1", "t1", 2⟩ "b9" "q9"
    ⟨"e1", "u0", "active"⟩ ⟨"t1", "e1", "GA", 0, 5, 1⟩ (by decide) rfl (by decide) rfl
    (by decide) (by decide)

/-- C4: a booking whose total price is positive is created in status
`pending` with no redemption token, no tier counter is changed by the
creation, and the counters (and all bookings) stay unchanged under any
further sequence of reconciliations none of which observes
`payment_status = "paid"`. -/
theorem paid_booking_pending (s : Store) (uid : String) (d : BookingCreate)
    (fid fqr : String) (ev : EventRec) (tt : TicketType)
    (hev : s.events.find? (fun e => e.id == d.event_id) = some ev)
    (hact : ev.status = "active")
    (htt : s.ticket_types.find? (fun t => t.id == d.ticket_type_id) = some tt)
    (hevid : tt.event_id = d.event_id)
    (havail : ¬ tt.quantity_available - tt.quantity_sold < d.quantity)
    (hpos : 0 < tt.price * (d.quantity : ℚ)) :
    create_booking s uid d fid fqr = .ok
      ({ s with bookings := s.bookings ++ [newBooking uid d tt fid fqr] },
       ⟨newBooking uid d tt fid fqr, true⟩) ∧
    (newBooking uid d tt fid fqr).status = "pending" ∧
    (newBooking uid d tt fid fqr).qr_code_data = none ∧
    ∀ ops : List Op, (∀ op ∈ ops, reconcileNotPaid op = true) →
      (runOps { s with bookings := s.bookings ++ [newBooking uid d tt fid fqr] }
          ops).ticket_types = s.ticket_types ∧
      (runOps { s with bookings := s.bookings ++ [newBooking uid d tt fid fqr] }
          ops).bookings = s.bookings ++ [newBooking uid d tt fid fqr] := by
  have hz : tt.price * (d.quantity : ℚ) ≠ 0 := ne_of_gt hpos
  refine ⟨?_, ?_, ?_, ?_⟩
  · rw [create_booking_ok s uid d fid fqr ev tt hev hact htt hevid havail,
      if_neg (by simpa using hz)]
    simp [hpos]
  · simp [newBooking, hpos]
  · simp [newBooking, hz]
  · intro ops hops
    obtain ⟨hb, ht⟩ := runOps_not_paid_frame
      { s with bookings := s.bookings ++ [newBooking uid d tt fid fqr] } ops hops
    exact ⟨ht, hb⟩

/-- Witness for C4: booking 1 ticket of the priced tier of `c1Store`,
followed by a reconciliation observing "expired". -/
theorem paid_booking_pending_witness :
    (newBooking "u1" ⟨"e1", "t1", 1⟩ ⟨"t1", "e1", "VIP", 10, 1, 0⟩ "b9" "q9").status =
      "pending" ∧
    (newBooking "u1" ⟨"e1", "t1", 1⟩ ⟨"t1", "e1", "VIP", 10, 1, 0⟩ "b9" "q9").qr_code_data =
      none ∧
    (runOps { c1Store with bookings := c1Store.bookings ++
        [newBooking "u1" ⟨"e1", "t1", 1⟩ ⟨"t1", "e1", "VIP", 10, 1, 0⟩ "b9" "q9"] }
      [.reconcile "u1" "s1" ⟨"expired", "expired", 1000, "usd"⟩ "qq"]).ticket_types =
      c1Store.ticket_types := by
  have h := paid_booking_pending c1Store "u1" ⟨"e1", "t1", 1⟩ "b9" "q9"
    ⟨"e1", "u0", "active"⟩ ⟨"t1", "e1", "VIP", 10, 1, 0⟩ (by decide) rfl (by decide) rfl
    (by decide) (by norm_num)
  exact ⟨h.2.1, h.2.2.1,
    (h.2.2.2 [.reconcile "u1" "s1" ⟨"expired", "expired", 1000, "usd"⟩ "qq"] (by decide)).1⟩

/-- C5: `check_payment_status` is idempotent.  For a stored transaction
not yet marked paid whose provider status comes back "paid" and whose
linked booking is pending: the first call succeeds and increments the
tier counter by the booking's quantity, and an immediately repeated call
for the same (now already-paid) session short-circuits, returning success
with the store — bookings and inventory included — completely untouched;
so the counter is incremented exactly once in total. -/
theorem reconcile_idempotent (s : Store) (uid uid2 sid : String)
    (cs cs2 : CheckoutStatusResponse) (fqr fqr2 : String)
    (tx : PaymentTransaction) (b0 : Booking) (tt : TicketType)
    (htx : s.payment_transactions.find? (fun t => t.session_id == sid) = some tx)
    (hnot : tx.payment_status ≠ "paid")
    (hcs : cs.payment_status = "paid")
    (hfb : s.bookings.find? (fun b => b.id == tx.booking_id) = some b0)
    (hpend : b0.status = "pending")
    (htt : s.ticket_types.find? (fun t => t.id == b0.ticket_type_id) = some tt) :
    ∃ s1 r1, check_payment_status s uid sid cs fqr = .ok (s1, r1) ∧
      s1.ticket_types.find? (fun t => t.id == b0.ticket_type_id) =
        some { tt with quantity_sold := tt.quantity_sold + b0.quantity } ∧
      check_payment_status s1 uid2 sid cs2 fqr2 =
        .ok (s1, ⟨"completed", "paid", none, none⟩) := by
  refine ⟨_, _,
    check_payment_status_paid_pending s uid sid cs fqr tx b0 htx hnot hcs hfb hpend, ?_, ?_⟩
  · show (incTier b0.ticket_type_id b0.quantity s.ticket_types).find?
        (fun t => t.id == b0.ticket_type_id) = _
    exact find?_updateFirst htt (by simpa using List.find?_some htt)
  · have htx1 : (refreshTx sid cs s.payment_transactions).find?
        (fun t => t.session_id == sid) =
        some { tx with payment_status := cs.payment_status, status := cs.status } :=
      find?_updateFirst htx (by simpa using List.find?_some htx)
    exact check_payment_status_guard _ uid2 sid cs2 fqr2 _ htx1 hcs

/-- Witness for C5: reconciling session `s1` of `c1Store` twice with the
provider reporting "paid" both times increments the `t1` counter exactly
once. -/
theorem reconcile_idempotent_witness :
    ∃ s1 r1, check_payment_status c1Store "u1" "s1" ⟨"complete", "paid", 1000, "usd"⟩ "q1" =
        .ok (s1, r1) ∧
      s1.ticket_types.find? (fun t => t.id == "t1") = some ⟨"t1", "e1", "VIP", 10, 1, 1⟩ ∧
      check_payment_status s1 "u2" "s1" ⟨"complete", "paid", 1000, "usd"⟩ "q2" =
        .ok (s1, ⟨"completed", "paid", none, none⟩) :=
  reconcile_idempotent c1Store "u1" "u2" "s1" ⟨"complete", "paid", 1000, "usd"⟩
    ⟨"complete", "paid", 1000, "usd"⟩ "q1" "q2"
    ⟨"p1", "s1", "b1", "u1", 10, "pending", "initiated"⟩
    ⟨"b1", "u1", "e1", "t1", 1, 10, "pending", some "s1", none⟩
    ⟨"t1", "e1", "VIP", 10, 1, 0⟩
    (by decide) (by decide) rfl (by decide) rfl (by decide)

/-- C6 is refuted as stated: a verified webhook reporting event
`checkout.session.completed` with `payment_status = "paid"` for session
`s1` of `c1Store` — whose linked booking `b1` is still pending — leaves
every booking (in particular `b1`, still pending and token-less) and the
tier counter unchanged: the webhook path does not run the confirmation
step the client-poll path runs. -/
theorem webhook_confirm_counterexample :
    (stripe_webhook c1Store ⟨"checkout.session.completed", "s1", "paid"⟩).bookings =
      c1Store.bookings ∧
    (stripe_webhook c1Store ⟨"checkout.session.completed", "s1", "paid"⟩).ticket_types =
      c1Store.ticket_types ∧
    ¬ ∃ b ∈ (stripe_webhook c1Store ⟨"checkout.session.completed", "s1", "paid"⟩).bookings,
        b.id = "b1" ∧ b.status = "confirmed" := by
  refine ⟨by decide, by decide, by decide⟩

/-- C6 (amended): the provider-callback (webhook) path does NOT behave
like the client-poll path: on a verified `checkout.session.completed`
event it only rewrites the stored `payment_status` of the matching
payment transaction, leaving every booking, tier, event and user
untouched — no booking is confirmed, no redemption token assigned, no
counter incremented. -/
theorem webhook_updates_only_transaction (s : Store) (wr : WebhookResponse) :
    (stripe_webhook s wr).bookings = s.bookings ∧
    (stripe_webhook s wr).ticket_types = s.ticket_types ∧
    (stripe_webhook s wr).events = s.events ∧
    (stripe_webhook s wr).users = s.users ∧
    (wr.event_type = "checkout.session.completed" →
      ∀ tx, s.payment_transactions.find? (fun t => t.session_id == wr.session_id) = some tx →
        (stripe_webhook s wr).payment_transactions.find?
            (fun t => t.session_id == wr.session_id) =
          some { tx with payment_status := wr.payment_status }) := by
  unfold stripe_webhook
  by_cases he : (wr.event_type == "checkout.session.completed") = true
  · rw [if_pos he]
    refine ⟨rfl, rfl, rfl, rfl, fun _ tx htx => ?_⟩
    exact find?_updateFirst htx (by simpa using List.find?_some htx)
  · rw [if_neg he]
    exact ⟨rfl, rfl, rfl, rfl, fun hev tx htx => absurd (beq_iff_eq.mpr hev) he⟩

/-- Witness for C6 (amended) on session `s2` of `c1Store`. -/
theorem webhook_updates_only_transaction_witness :
    (stripe_webhook c1Store ⟨"checkout.session.completed", "s2", "paid"⟩).bookings =
      c1Store.bookings ∧
    (stripe_webhook c1Store
        ⟨"checkout.session.completed", "s2", "paid"⟩).payment_transactions.find?
        (fun t => t.session_id == "s2") =
      some ⟨"p2", "s2", "b2", "u1", 10, "paid", "initiated"⟩ := by
  have h := webhook_updates_only_transaction c1Store ⟨"checkout.session.completed", "s2", "paid"⟩
  exact ⟨h.1, h.2.2.2.2 rfl ⟨"p2", "s2", "b2", "u1", 10, "pending", "initiated"⟩ (by decide)⟩

/-- C7: booking status is monotone along pending → confirmed: every
operation leaves each stored booking either unchanged or moved from
pending to confirmed (a confirmed booking is never modified at all, so
never moved back to pending), and a reconciliation observing
`payment_status ∈ {failed, expired}` leaves all bookings (they stay
pending) and all tier counters unchanged. -/
theorem booking_status_monotone (s : Store) (op : Op) :
    (s.bookings.length ≤ (applyOp s op).bookings.length ∧
     bookingsMono s.bookings (applyOp s op).bookings) ∧
    ∀ uid sid cs fqr, op = .reconcile uid sid cs fqr →
      (cs.payment_status = "failed" ∨ cs.payment_status = "expired") →
      (applyOp s op).bookings = s.bookings ∧
      (applyOp s op).ticket_types = s.ticket_types := by
  constructor
  · cases op with
    | createBooking uid d fid fqr =>
      cases hres : create_booking s uid d fid fqr with
      | error e =>
        rw [applyOp_createBooking_error hres]
        exact ⟨le_refl _, bookingsMono_refl _⟩
      | ok p =>
        obtain ⟨s', r⟩ := p
        rw [applyOp_createBooking_ok hres]
        obtain ⟨ev, tt, hev, hact, htt, hevid, havail⟩ := create_booking_ok_inv hres
        rw [create_booking_ok s uid d fid fqr ev tt hev hact htt hevid havail] at hres
        injection hres with hres
        injection hres with h1 h2
        subst h1
        by_cases hz : (tt.price * (d.quantity : ℚ) == 0) = true
        · rw [if_pos hz]
          exact ⟨by simp, bookingsMono_append _ _⟩
        · rw [if_neg hz]
          exact ⟨by simp, bookingsMono_append _ _⟩
    | checkout uid bid sid ftx =>
      cases hres : create_checkout_session s uid bid sid ftx with
      | error e =>
        rw [applyOp_checkout_error hres]
        exact ⟨le_refl _, bookingsMono_refl _⟩
      | ok p =>
        obtain ⟨s', r⟩ := p
        rw [applyOp_checkout_ok hres]
        obtain ⟨b0, hb, huid, hst, hr, hs'⟩ := create_checkout_session_ok_inv hres
        subst hs'
        constructor
        · show s.bookings.length ≤ (updateFirst (fun b => b.id == b0.id)
            (fun b => { b with payment_intent_id := some sid }) s.bookings).length
          rw [length_updateFirst]
        · apply bookingsMono_updateFirst
          intro b1 hb1
          have hbid : b0.id = bid := by simpa using List.find?_some hb
          rw [hbid, hb] at hb1
          injection hb1 with hb1
          subst hb1
          exact ⟨by simp [hst], Or.inl rfl⟩
    | reconcile uid sid cs fqr =>
      cases htx : s.payment_transactions.find? (fun t => t.session_id == sid) with
      | none =>
        rw [applyOp_reconcile_error (show check_payment_status s uid sid cs fqr =
          .error ⟨404, "Transaction not found"⟩ by unfold check_payment_status; rw [htx])]
        exact ⟨le_refl _, bookingsMono_refl _⟩
      | some tx =>
        by_cases hpaid : tx.payment_status = "paid"
        · rw [applyOp_reconcile_ok (check_payment_status_guard s uid sid cs fqr tx htx hpaid)]
          exact ⟨le_refl _, bookingsMono_refl _⟩
        · by_cases hcs : cs.payment_status = "paid"
          · cases hfb : s.bookings.find? (fun b => b.id == tx.booking_id) with
            | none =>
              rw [applyOp_reconcile_ok (check_payment_status_paid_other s uid sid cs fqr tx
                htx hpaid hcs (fun b1 hb1 => Option.noConfusion (hfb ▸ hb1)))]
              exact ⟨le_refl _, bookingsMono_refl _⟩
            | some b0 =>
              by_cases hbpend : b0.status = "pending"
              · rw [applyOp_reconcile_ok (check_payment_status_paid_pending s uid sid cs fqr
                  tx b0 htx hpaid hcs hfb hbpend)]
                constructor
                · show s.bookings.length ≤
                    (confirmBooking tx.booking_id fqr s.bookings).length
                  rw [confirmBooking, length_updateFirst]
                · show bookingsMono s.bookings (confirmBooking tx.booking_id fqr s.bookings)
                  rw [confirmBooking]
                  apply bookingsMono_updateFirst
                  intro b1 hb1
                  rw [hfb] at hb1
                  injection hb1 with hb1
                  subst hb1
                  exact ⟨by simp [hbpend], Or.inr ⟨hbpend, rfl⟩⟩
              · rw [applyOp_reconcile_ok (check_payment_status_paid_other s uid sid cs fqr tx
                  htx hpaid hcs (fun b1 hb1 => by
                    rw [hfb] at hb1
                    injection hb1 with hb1
                    rw [← hb1]
                    exact hbpend))]
                exact ⟨le_refl _, bookingsMono_refl _⟩
          · rw [applyOp_reconcile_ok (check_payment_status_not_paid s uid sid cs fqr tx htx
              hpaid hcs)]
            exact ⟨le_refl _, bookingsMono_refl _⟩
    | webhook wr =>
      have hb : (applyOp s (.webhook wr)).bookings = s.bookings := by
        show (stripe_webhook s wr).bookings = s.bookings
        unfold stripe_webhook
        by_cases he : (wr.event_type == "checkout.session.completed") = true
        · rw [if_pos he]
        · rw [if_neg he]
      rw [hb]
      exact ⟨le_refl _, bookingsMono_refl _⟩
  · rintro uid sid cs fqr rfl hfe
    have hcs : cs.payment_status ≠ "paid" := by rcases hfe with h | h <;> simp [h]
    exact reconcile_not_paid_frame s uid sid cs fqr hcs

/-- Witness for C7 at a concrete failed reconciliation on `c1Store`. -/
theorem booking_status_monotone_witness :
    (applyOp c1Store (.reconcile "u1" "s1" ⟨"expired", "failed", 1000, "usd"⟩ "qq")).bookings =
      c1Store.bookings ∧
    (applyOp c1Store
        (.reconcile "u1" "s1" ⟨"expired", "failed", 1000, "usd"⟩ "qq")).ticket_types =
      c1Store.ticket_types :=
  (booking_status_monotone c1Store _).2 "u1" "s1" ⟨"expired", "failed", 1000, "usd"⟩ "qq" rfl
    (Or.inl rfl)

/-- C8: for the booking's owner, `get_booking_qr` fails with the
Conflict/InvalidState error (HTTP 400) whenever the booking is not in
status `confirmed`; on a confirmed booking carrying a (nonempty)
redemption token it succeeds, returns the store unchanged, and the
payload encoded into the produced QR image is exactly the stored
redemption token. -/
theorem render_redemption (s : Store) (bid uid : String) (b : Booking)
    (hfb : s.bookings.find? (fun x => x.id == bid) = some b)
    (howner : b.user_id = uid) :
    (b.status ≠ "confirmed" →
      get_booking_qr s bid uid =
        .error ⟨400, "Booking not confirmed or QR code not available"⟩) ∧
    (∀ tok, b.status = "confirmed" → b.qr_code_data = some tok → tok ≠ "" →
      get_booking_qr s bid uid = .ok (s, ⟨tok⟩)) := by
  unfold get_booking_qr
  rw [hfb]
  dsimp only
  rw [if_neg (by simp [howner])]
  constructor
  · intro hnc
    cases hq : b.qr_code_data with
    | none => rfl
    | some qr =>
      dsimp only
      rw [if_pos (by simp [hnc])]
  · intro tok hc hq hne
    rw [hq]
    dsimp only
    rw [if_neg (by simp [hc, hne])]

/-- Witness for C8: success on the confirmed booking `b1` of `c8Store`
(payload decodes to the stored token), failure on the pending `b2`. -/
theorem render_redemption_witness :
    get_booking_qr c8Store "b1" "u1" = .ok (c8Store, ⟨"tok-1"⟩) ∧
    get_booking_qr c8Store "b2" "u1" =
      .error ⟨400, "Booking not confirmed or QR code not available"⟩ := by
  constructor
  · exact (render_redemption c8Store "b1" "u1"
      ⟨"b1", "u1", "e1", "t1", 1, 0, "confirmed", none, some "tok-1"⟩ (by decide) rfl).2
      "tok-1" rfl rfl (by decide)
  · exact (render_redemption c8Store "b2" "u1"
      ⟨"b2", "u1", "e1", "t1", 1, 0, "pending", none, none⟩ (by decide) rfl).1 (by decide)

/-- C9 is refuted as stated ("organizer exactly once"): the same
non-admin user successfully self-selects organizer, then attendee, then
organizer again — three successive successful `select_role` calls, the
organizer role acquired twice. -/
theorem select_role_repeat_counterexample :
    select_role c9Store c9User "organizer" =
      .ok ({ c9Store with users := [⟨"u1", "a@x", "A", "organizer"⟩] }, "organizer") ∧
    select_role { c9Store with users := [⟨"u1", "a@x", "A", "organizer"⟩] }
        ⟨"u1", "a@x", "A", "organizer"⟩ "attendee" =
      .ok ({ c9Store with users := [⟨"u1", "a@x", "A", "attendee"⟩] }, "attendee") ∧
    select_role { c9Store with users := [⟨"u1", "a@x", "A", "attendee"⟩] }
        ⟨"u1", "a@x", "A", "attendee"⟩ "organizer" =
      .ok ({ c9Store with users := [⟨"u1", "a@x", "A", "organizer"⟩] }, "organizer") := by
  refine ⟨rfl, rfl, rfl⟩

/-- C9 (amended): the first user ever created by the session exchange
gets role "admin" and any user created while users already exist gets
"attendee"; `select_role` accepts only "attendee" or "organizer"
(anything else is a 400 ValidationError), an admin can never change role
(403 — so admin can never be shed), and a non-admin may set their role to
either allowed value on every call — not exactly once — while "admin"
can never be acquired since it is not an accepted value. -/
theorem role_lifecycle (s : Store) (email name tok fid : String) (u : UserRec)
    (role : String) :
    (s.users = [] →
      (create_session s email name tok fid).1.users = [⟨fid, email, name, "admin"⟩]) ∧
    (s.users ≠ [] → (∀ v ∈ s.users, v.email ≠ email) →
      (create_session s email name tok fid).1.users =
        s.users ++ [⟨fid, email, name, "attendee"⟩]) ∧
    (role ≠ "attendee" → role ≠ "organizer" →
      select_role s u role =
        .error ⟨400, "Invalid role. Must be 'attendee' or 'organizer'"⟩) ∧
    (u.role = "admin" →
      select_role s u role = .error ⟨403, "Cannot change admin role"⟩ ∨
      select_role s u role =
        .error ⟨400, "Invalid role. Must be 'attendee' or 'organizer'"⟩) ∧
    ((role = "attendee" ∨ role = "organizer") → u.role ≠ "admin" →
      select_role s u role = .ok (setRole s u.id role, role)) := by
  refine ⟨?_, ?_, ?_, ?_, ?_⟩
  · intro he
    unfold create_session
    rw [he]
    rfl
  · intro hne hnomail
    have h0 : s.users.find? (fun v => v.email == email) = none :=
      List.find?_eq_none.mpr (fun v hv => by simp [hnomail v hv])
    have hlen : (s.users.length == 0) = false := by
      simp only [beq_eq_false_iff_ne, ne_eq, List.length_eq_zero]
      exact hne
    unfold create_session
    rw [h0]
    dsimp only
    rw [hlen]
    rfl
  · intro h1 h2
    unfold select_role
    rw [if_pos (by simp [h1, h2])]
  · intro hadm
    by_cases hval : (role != "attendee" && role != "organizer") = true
    · right
      unfold select_role
      rw [if_pos hval]
    · left
      unfold select_role
      rw [if_neg hval, if_pos (by simp [hadm])]
  · intro hvalid hnadm
    unfold select_role
    rw [if_neg (by rcases hvalid with rfl | rfl <;> simp), if_neg (by simp [hnadm])]
    rfl

/-- Witness for C9 (amended) at concrete stores and calls. -/
theorem role_lifecycle_witness :
    (create_session emptyStore "a@x" "A" "tk" "u9").1.users =
      [⟨"u9", "a@x", "A", "admin"⟩] ∧
    (create_session c9Store "b@x" "B" "tk" "u10").1.users =
      c9Store.users ++ [⟨"u10", "b@x", "B", "attendee"⟩] ∧
    select_role c9Store c9User "boss" =
      .error ⟨400, "Invalid role. Must be 'attendee' or 'organizer'"⟩ ∧
    select_role c9Store ⟨"u1", "a@x", "A", "admin"⟩ "attendee" =
      .error ⟨403, "Cannot change admin role"⟩ ∧
    select_role c9Store c9User "organizer" =
      .ok (setRole c9Store "u1" "organizer", "organizer") := by
  refine ⟨?_, ?_, ?_, ?_, ?_⟩
  · exact (role_lifecycle emptyStore "a@x" "A" "tk" "u9" c9User "x").1 rfl
  · exact (role_lifecycle c9Store "b@x" "B" "tk" "u10" c9User "x").2.1 (by decide) (by decide)
  · exact (role_lifecycle c9Store "x" "x" "tk" "x" c9User "boss").2.2.1 (by decide) (by decide)
  · rcases (role_lifecycle c9Store "x" "x" "tk" "x" ⟨"u1", "a@x", "A", "admin"⟩
      "attendee").2.2.2.1 rfl with h | h
    · exact h
    · have h403 : select_role c9Store ⟨"u1", "a@x", "A", "admin"⟩ "attendee" =
          .error ⟨403, "Cannot change admin role"⟩ := rfl
      rw [h403] at h
      simp at h
  · exact (role_lifecycle c9Store "x" "x" "tk" "x" c9User "organizer").2.2.2.2
      (Or.inr rfl) (by decide)

/-- C10 (implicit): `check_payment_status` performs no ownership check:
its result is entirely independent of the authenticated caller, its only
error is 404 NotFound, raised exactly when no stored transaction matches
the session id (never 403 NotAuthorized), and whenever the transaction
exists — whatever its `user_id` — the call proceeds and returns success
(in particular it can confirm the linked booking and bump the tier
counter on a stranger's transaction). -/
theorem reconcile_no_ownership_check (s : Store) (sid : String)
    (cs : CheckoutStatusResponse) (fqr : String) :
    (∀ u1 u2, check_payment_status s u1 sid cs fqr = check_payment_status s u2 sid cs fqr) ∧
    (∀ uid e, check_payment_status s uid sid cs fqr = .error e →
      e = ⟨404, "Transaction not found"⟩ ∧
      s.payment_transactions.find? (fun t => t.session_id == sid) = none) ∧
    (∀ uid tx, s.payment_transactions.find? (fun t => t.session_id == sid) = some tx →
      ∃ s' r, check_payment_status s uid sid cs fqr = .ok (s', r)) := by
  have hok : ∀ uid tx,
      s.payment_transactions.find? (fun t => t.session_id == sid) = some tx →
      ∃ s' r, check_payment_status s uid sid cs fqr = .ok (s', r) := by
    intro uid tx htx
    by_cases hpaid : tx.payment_status = "paid"
    · exact ⟨s, _, check_payment_status_guard s uid sid cs fqr tx htx hpaid⟩
    · by_cases hcs : cs.payment_status = "paid"
      · cases hfb : s.bookings.find? (fun b => b.id == tx.booking_id) with
        | none =>
          exact ⟨_, _, check_payment_status_paid_other s uid sid cs fqr tx htx hpaid hcs
            (fun b1 hb1 => Option.noConfusion (hfb ▸ hb1))⟩
        | some b0 =>
          by_cases hbpend : b0.status = "pending"
          · exact ⟨_, _, check_payment_status_paid_pending s uid sid cs fqr tx b0 htx
              hpaid hcs hfb hbpend⟩
          · exact ⟨_, _, check_payment_status_paid_other s uid sid cs fqr tx htx hpaid hcs
              (fun b1 hb1 => by
                rw [hfb] at hb1
                injection hb1 with hb1
                rw [← hb1]
                exact hbpend)⟩
      · exact ⟨_, _, check_payment_status_not_paid s uid sid cs fqr tx htx hpaid hcs⟩
  refine ⟨fun u1 u2 => rfl, ?_, hok⟩
  intro uid e herr
  cases htx : s.payment_transactions.find? (fun t => t.session_id == sid) with
  | none =>
    have h404 : check_payment_status s uid sid cs fqr =
        .error ⟨404, "Transaction not found"⟩ := by
      unfold check_payment_status; rw [htx]
    rw [h404] at herr
    injection herr with herr
    exact ⟨herr.symm, rfl⟩
  | some tx =>
    obtain ⟨s', r, hok'⟩ := hok uid tx htx
    rw [hok'] at herr
    exact Except.noConfusion herr

/-- Witness for C10: a stranger (not the transaction's owner `u1`)
successfully reconciles session `s1` of `c1Store`. -/
theorem reconcile_no_ownership_check_witness :
    (∃ s' r, check_payment_status c1Store "stranger" "s1"
        ⟨"complete", "paid", 1000, "usd"⟩ "q" = .ok (s', r)) ∧
    ("u1" : String) ≠ "stranger" :=
  ⟨(reconcile_no_ownership_check c1Store "s1" ⟨"complete", "paid", 1000, "usd"⟩ "q").2.2
      "stranger" ⟨"p1", "s1", "b1", "u1", 10, "pending", "initiated"⟩ (by decide),
   by decide⟩

end EventBackend
